import Mathlib

/-!
Verification of the Deals Finder backend (`back.py`).

The file shallowly embeds the backend's data model and operations:
source fetchers (`scrape_leboncoin`, `scrape_vinted`), the aggregator
(`scrape_all_platforms`), the listing endpoint's filter pipeline
(`get_products`), the in-memory cache with 30-minute TTL and the
`search` / `refresh` operations over it, and the `stats` computation.

Modelling conventions:
* Python floats are modelled as exact rationals (`ℚ`); Python's `round`
  (banker's rounding, half to even) is modelled by `pyRound`.
* Randomness (`random.random`, `random.uniform`, `random.choice`,
  `random.randint`) is modelled by an explicit stream of `Draw` values,
  one per loop iteration; every theorem quantifies over all streams.
* Timestamps are integers counting minutes; `datetime.now() - t <
  timedelta(minutes=30)` becomes `now - t < 30`.
* The cache (a Python `dict`) is an association list read through
  `List.lookup`; assignment prepends (the newest binding shadows older
  ones, matching `dict` overwrite) and `del` removes every binding for
  the key.
* The `md5` hexdigest in `get_cache_key` is modelled by the identity on
  the composed key string: the digest is a deterministic function of
  that string, and nothing in the program inspects its content.
* Python list slicing `l[:n]` is modelled by `pyTake`, including the
  negative-index case.
* `asyncio.gather` of the selected fetcher coroutines is modelled by the
  list of their results in invocation order; Python's stable `list.sort`
  with `reverse=True` on the discount key is modelled by the stable
  insertion sort `sortByDiscountDesc`.
-/

/-- Floor of a rational number, computed from its normalised fraction. -/
def ratFloor (x : ℚ) : ℤ := Int.fdiv x.num x.den

/-- Python's built-in `round` on a rational: round half to even. -/
def pyRound (x : ℚ) : ℤ :=
  let n := ratFloor x
  let frac := x - (n : ℚ)
  if frac < 1 / 2 then n
  else if 1 / 2 < frac then n + 1
  else if n % 2 = 0 then n else n + 1

/-- Python's `round(x, nd)` for `nd` decimal digits. -/
def pyRoundTo (x : ℚ) (nd : ℕ) : ℚ := (pyRound (x * 10 ^ nd) : ℚ) / 10 ^ nd

/-- Python's slice `l[:n]`: the first `n` elements when `n ≥ 0`, and all
but the last `-n` elements when `n < 0`. -/
def pyTake (n : ℤ) (l : List α) : List α :=
  if 0 ≤ n then l.take n.toNat else l.take (l.length - n.natAbs)

/-- Whether `needle` occurs as a contiguous run inside `hay` (Python's
`needle in hay` on lists of characters). -/
def charsContain (needle : List Char) : List Char → Bool
  | [] => needle.isEmpty
  | c :: rest => needle.isPrefixOf (c :: rest) || charsContain needle rest

/-- Python's `needle in hay` on strings. -/
def strContains (hay needle : String) : Bool :=
  charsContain needle.toList hay.toList

/-- Python's `str.title()` (restricted to one-case-per-character
alphabets): the first letter of every alphabetic run is upper-cased and
the rest are lower-cased. -/
def pyTitleChars : List Char → Bool → List Char
  | [], _ => []
  | c :: rest, prevAlpha =>
    (if c.isAlpha then (if prevAlpha then c.toLower else c.toUpper) else c)
      :: pyTitleChars rest c.isAlpha

/-- Python's `str.title()` on strings. -/
def pyTitle (s : String) : String := String.mk (pyTitleChars s.toList false)

/-- Python's `str.lower()`, applied character by character (this keeps
the function kernel-reducible, unlike `String.toLower`). -/
def pyLower (s : String) : String := String.mk (s.toList.map Char.toLower)

/-- Python's `str(x)` for an `Optional[str]`: `None` prints as `"None"`
inside an f-string. -/
def pyOptStr : Option String → String
  | none => "None"
  | some s => s

/-- Listing record, mirroring the `Product` pydantic model of `back.py`
(floats as rationals). Fetchers emit listings without an `id`; the
aggregator assigns ids, so fetchers here fill `id := 0`. -/
structure Product where
  id : ℕ
  title : String
  platform : String
  priceAverage : ℚ
  priceSale : ℚ
  discount : ℤ
  location : String
  category : String
  seller : String
  postedHoursAgo : ℕ
  emoji : String
  color : String
  url : Option String := none
  image_url : Option String := none
deriving DecidableEq

/-- Body of `POST /api/search`, mirroring the `SearchRequest` pydantic
model: `min_discount` and `max_results` are plain integers, with no
range constraint attached. -/
structure SearchRequest where
  query : String
  location : Option String := none
  platform : Option String := none
  min_discount : ℤ := 40
  max_results : ℤ := 50
deriving DecidableEq

/-- Outcome of one loop iteration's random draws in a fetcher:
`ratio` models `random.uniform(...)`, `locIdx` the index drawn by
`random.choice`, and the rest the `random.randint` draws. -/
structure Draw where
  ratio : ℚ
  locIdx : ℕ
  sellerNum : ℕ
  hours : ℕ
  urlNum : ℕ
deriving DecidableEq

/-- Price profile looked up from a fetcher's template table. -/
structure Template where
  avgPrice : ℚ
  category : String
  emoji : String
deriving DecidableEq

/-- Finds the first template whose key occurs in `query.lower()`,
falling back to `default` (the `for key, value in ...: if key in
query.lower()` loop of both fetchers). -/
def findTemplate (templates : List (String × Template)) (query : String)
    (default : Template) : Template :=
  match templates with
  | [] => default
  | (k, t) :: rest =>
    if strContains (pyLower query) k then t else findTemplate rest query default

/-- Template table of `scrape_leboncoin`. -/
def lbc_templates : List (String × Template) :=
  [("iphone", ⟨850, "Téléphonie", "📱"⟩),
   ("macbook", ⟨1600, "Informatique", "💻"⟩),
   ("ps5", ⟨450, "Jeux vidéo", "🎮"⟩),
   ("jordan", ⟨150, "Chaussures", "👟"⟩),
   ("canapé", ⟨700, "Mobilier", "🛋️"⟩)]

/-- Location pool of `scrape_leboncoin`. -/
def lbc_locations : List String :=
  ["Paris", "Lyon", "Marseille", "Toulouse", "Bordeaux", "Nice"]

/-- Template table of `scrape_vinted`. -/
def vinted_templates : List (String × Template) :=
  [("nike", ⟨120, "Chaussures", "👟"⟩),
   ("zara", ⟨80, "Vêtements", "👔"⟩),
   ("sac", ⟨200, "Mode", "👜"⟩),
   ("pull", ⟨60, "Vêtements", "🧥"⟩)]

/-- Location pool of `scrape_vinted`. -/
def vinted_locations : List String :=
  ["Paris", "Lyon", "Marseille", "Lille", "Nantes"]

/-- Fetcher for Leboncoin (`scrape_leboncoin`): for each of the
`max_results` loop iterations, draw a price ratio, compute the sale
price and the rounded discount, and keep the listing only when the
discount reaches the generation-time floor of 40. -/
def scrape_leboncoin (query : String) (max_results : ℕ) (draws : ℕ → Draw) :
    List Product :=
  let t := findTemplate lbc_templates query ⟨500, "Divers", "📦"⟩
  (List.range max_results).filterMap (fun i =>
    let d := draws i
    let price : ℤ := pyRound (t.avgPrice * d.ratio)
    let discount : ℤ := pyRound ((t.avgPrice - (price : ℚ)) / t.avgPrice * 100)
    if discount < 40 then none
    else some
      { id := 0
        title := pyTitle query ++ " - Excellent état"
        platform := "leboncoin"
        priceAverage := t.avgPrice
        priceSale := (price : ℚ)
        discount := discount
        location := lbc_locations.getD (d.locIdx % lbc_locations.length) "Paris"
        category := t.category
        seller := "User" ++ toString d.sellerNum
        postedHoursAgo := d.hours
        emoji := t.emoji
        color := "#ff6e14"
        url := some ("https://www.leboncoin.fr/ad/" ++ toString d.urlNum) })

/-- Fetcher for Vinted (`scrape_vinted`), same shape as
`scrape_leboncoin` with Vinted's tables and constants. -/
def scrape_vinted (query : String) (max_results : ℕ) (draws : ℕ → Draw) :
    List Product :=
  let t := findTemplate vinted_templates query ⟨100, "Mode", "👕"⟩
  (List.range max_results).filterMap (fun i =>
    let d := draws i
    let price : ℤ := pyRound (t.avgPrice * d.ratio)
    let discount : ℤ := pyRound ((t.avgPrice - (price : ℚ)) / t.avgPrice * 100)
    if discount < 40 then none
    else some
      { id := 0
        title := pyTitle query ++ " - Très bon état"
        platform := "vinted"
        priceAverage := t.avgPrice
        priceSale := (price : ℚ)
        discount := discount
        location := vinted_locations.getD (d.locIdx % vinted_locations.length) "Paris"
        category := t.category
        seller := "VintedUser" ++ toString d.sellerNum
        postedHoursAgo := d.hours
        emoji := t.emoji
        color := "#09b1ba"
        url := some ("https://www.vinted.fr/items/" ++ toString d.urlNum) })

/-- Whether `scrape_all_platforms` invokes the Leboncoin fetcher for the
given platform filter. -/
def selects_leboncoin : Option String → Bool
  | none => true
  | some s => s == "all" || s == "leboncoin"

/-- Whether `scrape_all_platforms` invokes the Vinted fetcher for the
given platform filter. -/
def selects_vinted : Option String → Bool
  | none => true
  | some s => s == "all" || s == "vinted"

/-- Assigns sequential identifiers `n, n+1, ...` down a listing sequence
(the `product['id'] = product_id; product_id += 1` loop). -/
def assignIds (n : ℕ) : List Product → List Product
  | [] => []
  | p :: ps => { p with id := n } :: assignIds (n + 1) ps

/-- One insertion step of the stable descending-by-discount sort: `x` is
placed before the first element whose discount does not exceed it, so an
incoming element lands after all earlier elements of equal discount. -/
def insertDiscountDesc (x : Product) : List Product → List Product
  | [] => [x]
  | y :: ys =>
    if y.discount ≤ x.discount then x :: y :: ys else y :: insertDiscountDesc x ys

/-- Stable sort by discount descending, the model of Python's stable
`list.sort(key=lambda x: x['discount'], reverse=True)`. -/
def sortByDiscountDesc : List Product → List Product
  | [] => []
  | x :: xs => insertDiscountDesc x (sortByDiscountDesc xs)

/-- Aggregator (`scrape_all_platforms`): runs the selected fetchers
(each with `max_results=25`), concatenates their results in invocation
order, assigns ids `1..N` over the concatenation, and sorts by discount
descending with Python's stable sort. -/
def scrape_all_platforms (query : String) (platform : Option String)
    (lbcDraws vinDraws : ℕ → Draw) : List Product :=
  let results : List (List Product) :=
    (if selects_leboncoin platform then [scrape_leboncoin query 25 lbcDraws] else [])
      ++ (if selects_vinted platform then [scrape_vinted query 25 vinDraws] else [])
  let all_products := assignIds 1 results.flatten
  sortByDiscountDesc all_products

/-- In-memory cache, the Python `cache` dict: keys map to a cached
product list and the timestamp (in minutes) of the `cache[key] = ...`
assignment. Represented as an association list read through
`List.lookup`. -/
abbrev Cache := List (String × (List Product × ℤ))

/-- TTL of a cache entry, `CACHE_DURATION = timedelta(minutes=30)`. -/
def CACHE_DURATION : ℤ := 30

/-- Cache-key derivation (`get_cache_key`), composed only from the
query, the location and the platform; the md5 hexdigest is modelled by
the identity on the composed string. -/
def get_cache_key (query : String) (location platform : Option String) : String :=
  query ++ "_" ++ pyOptStr location ++ "_" ++ pyOptStr platform

/-- Dict assignment `cache[key] = v`: the new binding shadows any older
one under `List.lookup`. -/
def cachePut (c : Cache) (k : String) (v : List Product × ℤ) : Cache :=
  (k, v) :: c

/-- Dict deletion `del cache[key]` (a no-op when the key is absent,
matching the guarded `if cache_key in cache: del cache[cache_key]`). -/
def cacheErase (c : Cache) (k : String) : Cache :=
  c.filter (fun e => !(e.1 == k))

/-- Fresh-entry lookup, the `if cache_key in cache: ... if
datetime.now() - cached_time < CACHE_DURATION` check of
`search_products`: the stored list is returned exactly when the key is
present and its entry is strictly younger than the TTL. -/
def cacheFresh (c : Cache) (key : String) (now : ℤ) : Option (List Product) :=
  match List.lookup key c with
  | some (data, t) => if now - t < CACHE_DURATION then some data else none
  | none => none

/-- Response body of `POST /api/search` (`scraped_at` is only present on
the scraping path). -/
structure SearchResponse where
  status : String
  cached : Bool
  products : List Product
  count : ℕ
  scraped_at : Option ℤ := none
deriving DecidableEq

/-- Full outcome of one `search_products` call: the response, the cache
afterwards, and the product list handed to the background
`save_products` task (`none` when no save is scheduled). -/
structure SearchOutcome where
  response : SearchResponse
  cache : Cache
  saved : Option (List Product) := none
deriving DecidableEq

/-- Handler of `POST /api/search` (`search_products`): on a fresh cache
entry, return it with `cached=True` and touch nothing; otherwise scrape
the selected platforms, filter by location (when truthy and not
`'all'`), keep discounts at or above `min_discount`, truncate to
`max_results`, store the result in the cache stamped `now`, and schedule
the background save. The scrape-and-filter path run on a cache miss is
factored out as `search_filtered`. -/
def search_filtered (req : SearchRequest) (lbcDraws vinDraws : ℕ → Draw) :
    List Product :=
  let scraped := scrape_all_platforms req.query req.platform lbcDraws vinDraws
  let ps1 : List Product := match req.location with
    | some loc =>
      if !(loc == "") && !(loc == "all") then
        scraped.filter (fun p => p.location == loc)
      else scraped
    | none => scraped
  let ps2 := ps1.filter (fun p => decide (req.min_discount ≤ p.discount))
  pyTake req.max_results ps2

def search_products (req : SearchRequest) (c : Cache) (now : ℤ)
    (lbcDraws vinDraws : ℕ → Draw) : SearchOutcome :=
  let key := get_cache_key req.query req.location req.platform
  match cacheFresh c key now with
  | some data =>
    ⟨⟨"success", true, data, data.length, none⟩, c, none⟩
  | none =>
    let ps := search_filtered req lbcDraws vinDraws
    ⟨⟨"success", false, ps, ps.length, some now⟩,
      cachePut c key (ps, now), some ps⟩

/-- Response body of `GET /api/refresh`. -/
structure RefreshResponse where
  status : String
  message : String
  count : ℕ
  products : List Product
deriving DecidableEq

/-- Full outcome of one `refresh_data` call: the response, the cache
afterwards, and the product list handed to `save_products`. -/
structure RefreshOutcome where
  response : RefreshResponse
  cache : Cache
  saved : List Product
deriving DecidableEq

/-- Handler of `GET /api/refresh` (`refresh_data`): delete the cache
entry keyed by the query, a `None` location and the platform, re-scrape,
and save; the cache is not re-populated. -/
def refresh_data (query : String) (platform : Option String) (c : Cache)
    (lbcDraws vinDraws : ℕ → Draw) : RefreshOutcome :=
  let key := get_cache_key query none platform
  let c' := cacheErase c key
  let products := scrape_all_platforms query platform lbcDraws vinDraws
  ⟨⟨"success", "Données rafraîchies", products.length, products⟩, c', products⟩

/-- Query-text stage of the `get_products` filter pipeline: applied only
when `query` is truthy, it keeps listings whose lowered title contains
the lowered query. -/
def applyQueryFilter : Option String → List Product → List Product
  | none, l => l
  | some q, l =>
    if !(q == "") then l.filter (fun p => strContains (pyLower p.title) (pyLower q))
    else l

/-- Equality stage of the `get_products` filter pipeline (used for
location, category and platform): applied only when the criterion is
truthy and differs from `'all'`. -/
def applyEqFilter (sel : Product → String) : Option String → List Product → List Product
  | none, l => l
  | some s, l =>
    if !(s == "") && !(s == "all") then l.filter (fun p => sel p == s)
    else l

/-- Discount stage of the `get_products` filter pipeline: the Python
guard is `if min_discount:`, so the stage runs only when `min_discount`
is a non-zero integer. -/
def applyDiscountFilter (md : ℤ) (l : List Product) : List Product :=
  if !(md == 0) then l.filter (fun p => decide (md ≤ p.discount)) else l

/-- Handler of `GET /api/products` (`get_products`) after parameter
validation: the successive narrowing passes over the stored listings,
ending with the `[:max_results]` truncation. -/
def get_products (query location category platform : Option String)
    (min_discount max_results : ℤ) (products : List Product) : List Product :=
  pyTake max_results
    (applyDiscountFilter min_discount
      (applyEqFilter (fun p => p.platform) platform
        (applyEqFilter (fun p => p.category) category
          (applyEqFilter (fun p => p.location) location
            (applyQueryFilter query products)))))

/-- Filter stages of `get_products` with the discount stage left out,
stated from the spec's reading of the pipeline; compared against
`get_products` when `min_discount = 0`. -/
def filter_stages_sans_discount (query location category platform : Option String)
    (products : List Product) : List Product :=
  applyEqFilter (fun p => p.platform) platform
    (applyEqFilter (fun p => p.category) category
      (applyEqFilter (fun p => p.location) location
        (applyQueryFilter query products)))

/-- Range validation FastAPI performs on the query parameters of
`GET /api/products`: `min_discount = Query(40, ge=0, le=100)` and
`max_results = Query(50, ge=1, le=200)`. -/
def products_params_ok (min_discount max_results : ℤ) : Bool :=
  (decide (0 ≤ min_discount) && decide (min_discount ≤ 100))
    && (decide (1 ≤ max_results) && decide (max_results ≤ 200))

/-- API boundary of `GET /api/products`: out-of-range parameters are
rejected with a 422 client error before the handler runs (the handler
itself is read-only, so a rejected request has no side effect). -/
def get_products_endpoint (query location category platform : Option String)
    (min_discount max_results : ℤ) (store : List Product) :
    Except ℕ (List Product) :=
  if products_params_ok min_discount max_results then
    Except.ok (get_products query location category platform
      min_discount max_results store)
  else Except.error 422

/-- API boundary of `POST /api/search`: the pydantic `SearchRequest`
model types `min_discount` and `max_results` as plain ints with no range
constraint, so every well-typed body validates and the handler always
runs. -/
def search_endpoint (req : SearchRequest) (c : Cache) (now : ℤ)
    (lbcDraws vinDraws : ℕ → Draw) : Except ℕ SearchOutcome :=
  Except.ok (search_products req c now lbcDraws vinDraws)

/-- Response body of `GET /api/stats`, with the two Python dicts as
association lists in insertion order. -/
structure StatsResponse where
  total_products : ℕ
  good_deals_count : ℕ
  average_discount : ℚ
  total_savings : ℚ
  platforms : List (String × ℕ)
  categories : List (String × ℕ)
deriving DecidableEq

/-- One `d[k] = d.get(k, 0) + 1` step on an insertion-ordered dict. -/
def dictIncr : List (String × ℕ) → String → List (String × ℕ)
  | [], k => [(k, 1)]
  | (k', v) :: rest, k =>
    if k' == k then (k', v + 1) :: rest else (k', v) :: dictIncr rest k

/-- Counting dict built by the `for p in products:` loops of
`get_stats`. -/
def countBy (f : Product → String) (products : List Product) :
    List (String × ℕ) :=
  products.foldl (fun m p => dictIncr m (f p)) []

/-- Value a counting dict holds for `s` (`d.get(s, 0)`). -/
def lookupCount (m : List (String × ℕ)) (s : String) : ℕ :=
  (List.lookup s m).getD 0

/-- Handler of `GET /api/stats` (`get_stats`): zeroes on an empty store,
otherwise the aggregate metrics over the stored listings. -/
def get_stats (products : List Product) : StatsResponse :=
  if products.isEmpty then ⟨0, 0, 0, 0, [], []⟩
  else
    let total_savings := (products.map (fun p => p.priceAverage - p.priceSale)).sum
    let sum_discount : ℤ := (products.map (fun p => p.discount)).sum
    let avg_discount : ℚ := (sum_discount : ℚ) / (products.length : ℚ)
    ⟨products.length,
      (products.filter (fun p => decide (50 ≤ p.discount))).length,
      pyRoundTo avg_discount 1,
      pyRoundTo total_savings 2,
      countBy (fun p => p.platform) products,
      countBy (fun p => p.category) products⟩

/-! Sorting infrastructure. -/

lemma insertDiscountDesc_perm (x : Product) (l : List Product) :
    (insertDiscountDesc x l).Perm (x :: l) := by
  induction l with
  | nil => exact List.Perm.refl _
  | cons y ys ih =>
    unfold insertDiscountDesc
    split
    · exact List.Perm.refl _
    · exact (List.Perm.cons y ih).trans (List.Perm.swap x y ys)

lemma sortByDiscountDesc_perm (l : List Product) :
    (sortByDiscountDesc l).Perm l := by
  induction l with
  | nil => exact List.Perm.refl _
  | cons x xs ih =>
    exact (insertDiscountDesc_perm x (sortByDiscountDesc xs)).trans (List.Perm.cons x ih)

lemma insertDiscountDesc_pairwise (x : Product) (l : List Product)
    (hl : l.Pairwise (fun a b =>
      b.discount ≤ a.discount ∧ (a.discount = b.discount → a.id < b.id)))
    (hx : ∀ y ∈ l, x.discount = y.discount → x.id < y.id) :
    (insertDiscountDesc x l).Pairwise (fun a b =>
      b.discount ≤ a.discount ∧ (a.discount = b.discount → a.id < b.id)) := by
  induction l with
  | nil => simp [insertDiscountDesc]
  | cons y ys ih =>
    rw [List.pairwise_cons] at hl
    obtain ⟨hy, hys⟩ := hl
    unfold insertDiscountDesc
    split
    case isTrue hle =>
      rw [List.pairwise_cons]
      refine ⟨?_, by rw [List.pairwise_cons]; exact ⟨hy, hys⟩⟩
      intro z hz
      rcases List.mem_cons.mp hz with h | hz'
      · subst h
        exact ⟨hle, hx z (List.mem_cons_self _ _)⟩
      · exact ⟨le_trans (hy z hz').1 hle, hx z (List.mem_cons_of_mem _ hz')⟩
    case isFalse hgt =>
      have hlt : x.discount < y.discount := lt_of_not_ge hgt
      rw [List.pairwise_cons]
      constructor
      · intro z hz
        rcases List.mem_cons.mp ((insertDiscountDesc_perm x ys).mem_iff.mp hz) with h | hz'
        · subst h
          exact ⟨le_of_lt hlt, fun he => absurd he (by omega)⟩
        · exact hy z hz'
      · exact ih hys (fun z hz => hx z (List.mem_cons_of_mem _ hz))

lemma sortByDiscountDesc_pairwise (l : List Product)
    (hl : l.Pairwise (fun a b => a.discount = b.discount → a.id < b.id)) :
    (sortByDiscountDesc l).Pairwise (fun a b =>
      b.discount ≤ a.discount ∧ (a.discount = b.discount → a.id < b.id)) := by
  induction l with
  | nil => simp [sortByDiscountDesc]
  | cons x xs ih =>
    rw [List.pairwise_cons] at hl
    exact insertDiscountDesc_pairwise x _ (ih hl.2)
      (fun y hy => hl.1 y ((sortByDiscountDesc_perm xs).mem_iff.mp hy))

/-! Identifier assignment. -/

lemma assignIds_length (n : ℕ) (l : List Product) :
    (assignIds n l).length = l.length := by
  induction l generalizing n with
  | nil => rfl
  | cons p ps ih => simp [assignIds, ih]

lemma assignIds_map_id (n : ℕ) (l : List Product) :
    (assignIds n l).map (fun p => p.id) = List.range' n l.length := by
  induction l generalizing n with
  | nil => rfl
  | cons p ps ih => simp [assignIds, List.range'_succ, ih]

lemma assignIds_id_le (n : ℕ) (l : List Product) :
    ∀ p ∈ assignIds n l, n ≤ p.id := by
  induction l generalizing n with
  | nil => intro p hp; cases hp
  | cons q qs ih =>
    intro p hp
    rcases List.mem_cons.mp hp with h | hp'
    · subst h; exact le_refl _
    · exact le_trans (Nat.le_succ n) (ih (n + 1) p hp')

lemma assignIds_pairwise_id (n : ℕ) (l : List Product) :
    (assignIds n l).Pairwise (fun a b => a.id < b.id) := by
  induction l generalizing n with
  | nil => exact List.Pairwise.nil
  | cons p ps ih =>
    rw [assignIds, List.pairwise_cons]
    exact ⟨fun q hq => lt_of_lt_of_le (Nat.lt_succ_self n) (assignIds_id_le (n + 1) ps q hq),
      ih (n + 1)⟩

lemma pairwise_id_lt_imp (l : List Product)
    (h : l.Pairwise (fun a b => a.id < b.id)) :
    l.Pairwise (fun a b => a.discount = b.discount → a.id < b.id) :=
  h.imp (fun {a b} hab (_ : a.discount = b.discount) => hab)

lemma scrape_all_platforms_eq (query : String) (platform : Option String)
    (d1 d2 : ℕ → Draw) :
    scrape_all_platforms query platform d1 d2
      = sortByDiscountDesc (assignIds 1
          ((if selects_leboncoin platform then scrape_leboncoin query 25 d1 else [])
            ++ (if selects_vinted platform then scrape_vinted query 25 d2 else []))) := by
  unfold scrape_all_platforms
  cases hb : selects_leboncoin platform <;> cases hc : selects_vinted platform <;> simp

/-- C1. For every query and platform filter, the aggregator's output is a
permutation of the concatenation of the selected fetchers' results in
fetcher-invocation order with identifiers `1..N` assigned sequentially
over that concatenation; the output is sorted by discount descending
with ties broken by insertion order (equal discounts keep increasing
ids, the insertion order); and the output length is at most the sum of
each invoked fetcher's result length. -/
theorem aggregator_order_and_sort (query : String) (platform : Option String)
    (d1 d2 : ℕ → Draw) :
    (scrape_all_platforms query platform d1 d2).Perm
      (assignIds 1 ((if selects_leboncoin platform then scrape_leboncoin query 25 d1 else [])
        ++ (if selects_vinted platform then scrape_vinted query 25 d2 else [])))
    ∧ (assignIds 1 ((if selects_leboncoin platform then scrape_leboncoin query 25 d1 else [])
        ++ (if selects_vinted platform then scrape_vinted query 25 d2 else []))).map
          (fun p => p.id)
        = List.range' 1
            (((if selects_leboncoin platform then scrape_leboncoin query 25 d1 else [])
              ++ (if selects_vinted platform then scrape_vinted query 25 d2 else [])).length)
    ∧ (scrape_all_platforms query platform d1 d2).Pairwise
        (fun a b => b.discount ≤ a.discount)
    ∧ (scrape_all_platforms query platform d1 d2).Pairwise
        (fun a b => a.discount = b.discount → a.id < b.id)
    ∧ (scrape_all_platforms query platform d1 d2).length
        ≤ (if selects_leboncoin platform then scrape_leboncoin query 25 d1 else []).length
          + (if selects_vinted platform then scrape_vinted query 25 d2 else []).length := by
  have he := scrape_all_platforms_eq query platform d1 d2
  have hpw := sortByDiscountDesc_pairwise
    (assignIds 1 ((if selects_leboncoin platform then scrape_leboncoin query 25 d1 else [])
      ++ (if selects_vinted platform then scrape_vinted query 25 d2 else [])))
    (pairwise_id_lt_imp _ (assignIds_pairwise_id 1 _))
  refine ⟨?_, assignIds_map_id 1 _, ?_, ?_, ?_⟩
  · rw [he]; exact sortByDiscountDesc_perm _
  · rw [he]; exact hpw.imp (fun h => h.1)
  · rw [he]; exact hpw.imp (fun h => h.2)
  · rw [he, (sortByDiscountDesc_perm _).length_eq, assignIds_length, List.length_append]

/-! Fetcher invariants. -/

/-- C2. Every listing emitted by a source fetcher satisfies
`discount = round((priceAverage - priceSale) / priceAverage * 100)` and
`discount ≥ 40` (the generation-time floor: sub-floor listings are
discarded inside the generation loop), and each fetcher returns at most
`max_results` listings. -/
theorem fetcher_discount_invariants (q : String) (n : ℕ) (draws : ℕ → Draw) :
    (∀ p ∈ scrape_leboncoin q n draws,
      p.discount = pyRound ((p.priceAverage - p.priceSale) / p.priceAverage * 100)
        ∧ 40 ≤ p.discount) ∧
    (scrape_leboncoin q n draws).length ≤ n ∧
    (∀ p ∈ scrape_vinted q n draws,
      p.discount = pyRound ((p.priceAverage - p.priceSale) / p.priceAverage * 100)
        ∧ 40 ≤ p.discount) ∧
    (scrape_vinted q n draws).length ≤ n := by
  refine ⟨?_, ?_, ?_, ?_⟩
  · intro p hp
    simp only [scrape_leboncoin, List.mem_filterMap, List.mem_range] at hp
    obtain ⟨i, _, hf⟩ := hp
    split at hf
    · exact absurd hf (by simp)
    case isFalse h =>
      cases hf
      exact ⟨rfl, by dsimp only; omega⟩
  · exact le_trans (List.length_filterMap_le _ _) (by simp)
  · intro p hp
    simp only [scrape_vinted, List.mem_filterMap, List.mem_range] at hp
    obtain ⟨i, _, hf⟩ := hp
    split at hf
    · exact absurd hf (by simp)
    case isFalse h =>
      cases hf
      exact ⟨rfl, by dsimp only; omega⟩
  · exact le_trans (List.length_filterMap_le _ _) (by simp)

/-! Filter-pipeline lemmas. -/

lemma pyTake_subset (n : ℤ) (l : List α) : ∀ a ∈ pyTake n l, a ∈ l := by
  intro a ha
  unfold pyTake at ha
  split at ha <;> exact List.take_subset _ _ ha

lemma pyTake_length_le (n : ℤ) (l : List α) (h : 0 ≤ n) :
    (pyTake n l).length ≤ n.toNat := by
  unfold pyTake
  rw [if_pos h]
  simp [List.length_take]

lemma pyTake_eq_self (n : ℤ) (l : List α) (h : 0 ≤ n) (hl : l.length ≤ n.toNat) :
    pyTake n l = l := by
  unfold pyTake
  rw [if_pos h]
  exact List.take_of_length_le hl

lemma filter_stage_eq_self (pr : Product → Bool) (l m : List Product)
    (h : ∀ a ∈ m, a ∈ l.filter pr) : m.filter pr = m :=
  List.filter_eq_self.mpr (fun a ha => (List.mem_filter.mp (h a ha)).2)

lemma applyQueryFilter_subset (q : Option String) (l : List Product) :
    ∀ a ∈ applyQueryFilter q l, a ∈ l := by
  intro a ha
  cases q with
  | none => exact ha
  | some s =>
    simp only [applyQueryFilter] at ha
    split at ha
    · exact (List.mem_filter.mp ha).1
    · exact ha

lemma applyEqFilter_subset (sel : Product → String) (o : Option String)
    (l : List Product) : ∀ a ∈ applyEqFilter sel o l, a ∈ l := by
  intro a ha
  cases o with
  | none => exact ha
  | some s =>
    simp only [applyEqFilter] at ha
    split at ha
    · exact (List.mem_filter.mp ha).1
    · exact ha

lemma applyDiscountFilter_subset (md : ℤ) (l : List Product) :
    ∀ a ∈ applyDiscountFilter md l, a ∈ l := by
  intro a ha
  unfold applyDiscountFilter at ha
  split at ha
  · exact (List.mem_filter.mp ha).1
  · exact ha

lemma applyQueryFilter_restrict (q : Option String) (l m : List Product)
    (h : ∀ a ∈ m, a ∈ applyQueryFilter q l) : applyQueryFilter q m = m := by
  cases q with
  | none => rfl
  | some s =>
    simp only [applyQueryFilter] at h ⊢
    split
    case isTrue hcond =>
      rw [if_pos hcond] at h
      exact filter_stage_eq_self _ l m h
    case isFalse hcond => rfl


lemma applyEqFilter_restrict (sel : Product → String) (o : Option String)
    (l m : List Product) (h : ∀ a ∈ m, a ∈ applyEqFilter sel o l) :
    applyEqFilter sel o m = m := by
  cases o with
  | none => rfl
  | some s =>
    simp only [applyEqFilter] at h ⊢
    split
    case isTrue hcond =>
      rw [if_pos hcond] at h
      exact filter_stage_eq_self _ l m h
    case isFalse hcond => rfl

lemma applyDiscountFilter_restrict (md : ℤ) (l m : List Product)
    (h : ∀ a ∈ m, a ∈ applyDiscountFilter md l) :
    applyDiscountFilter md m = m := by
  unfold applyDiscountFilter at h ⊢
  split
  case isTrue hcond =>
    rw [if_pos hcond] at h
    exact filter_stage_eq_self _ l m h
  case isFalse hcond => rfl

/-- C6. The listing endpoint's filter-and-truncate pass is idempotent:
for every criteria admissible at the API boundary (the endpoint
validates `min_discount ∈ [0,100]` and `max_results ∈ [1,200]`),
applying the pass to its own output with the same criteria returns the
output unchanged. -/
theorem filter_pipeline_idempotent (query location category platform : Option String)
    (md mr : ℤ) (products : List Product)
    (h : products_params_ok md mr = true) :
    get_products query location category platform md mr
        (get_products query location category platform md mr products)
      = get_products query location category platform md mr products := by
  have hmr : 0 ≤ mr := by
    simp only [products_params_ok, Bool.and_eq_true, decide_eq_true_eq] at h
    omega
  unfold get_products
  set u1 := applyQueryFilter query products with hu1
  set u2 := applyEqFilter (fun p => p.location) location u1 with hu2
  set u3 := applyEqFilter (fun p => p.category) category u2 with hu3
  set u4 := applyEqFilter (fun p => p.platform) platform u3 with hu4
  set u5 := applyDiscountFilter md u4 with hu5
  set out := pyTake mr u5 with hout
  have s5 : ∀ a ∈ out, a ∈ u5 := pyTake_subset mr u5
  have s4 : ∀ a ∈ out, a ∈ u4 := fun a ha => applyDiscountFilter_subset md u4 a (s5 a ha)
  have s3 : ∀ a ∈ out, a ∈ u3 := fun a ha => applyEqFilter_subset _ platform u3 a (s4 a ha)
  have s2 : ∀ a ∈ out, a ∈ u2 := fun a ha => applyEqFilter_subset _ category u2 a (s3 a ha)
  have s1 : ∀ a ∈ out, a ∈ u1 := fun a ha => applyEqFilter_subset _ location u1 a (s2 a ha)
  rw [applyQueryFilter_restrict query products out s1,
    applyEqFilter_restrict _ location u1 out s2,
    applyEqFilter_restrict _ category u2 out s3,
    applyEqFilter_restrict _ platform u3 out s4,
    applyDiscountFilter_restrict md u4 out s5]
  exact pyTake_eq_self mr out hmr
    (le_trans (pyTake_length_le mr u5 hmr) (le_refl _))

/-! Concrete sample data used by witnesses and counterexamples. -/

/-- Draw whose ratio `1/2` yields a 50 percent discount. -/
def goodDraw : Draw := ⟨1 / 2, 0, 1234, 5, 42⟩

/-- Draw whose ratio `1` yields a 0 percent discount, which the
generation floor discards. -/
def dullDraw : Draw := ⟨1, 0, 1234, 5, 42⟩

/-- Draw stream producing exactly one accepted listing per fetcher. -/
def oneHitDraws : ℕ → Draw := fun i => if i = 0 then goodDraw else dullDraw

/-- The single listing `scrape_leboncoin "iphone"` produces from
`goodDraw`. -/
def lbcSample : Product :=
  { id := 0
    title := "Iphone - Excellent état"
    platform := "leboncoin"
    priceAverage := 850
    priceSale := 425
    discount := 50
    location := "Paris"
    category := "Téléphonie"
    seller := "User1234"
    postedHoursAgo := 5
    emoji := "📱"
    color := "#ff6e14"
    url := some "https://www.leboncoin.fr/ad/42" }

/-- A stored listing whose discount is negative. -/
def negDeal : Product :=
  { id := 1
    title := "Iphone - Occasion"
    platform := "leboncoin"
    priceAverage := 100
    priceSale := 105
    discount := -5
    location := "Paris"
    category := "Téléphonie"
    seller := "User1"
    postedHoursAgo := 1
    emoji := "📱"
    color := "#ff6e14" }

/-- Cached listing with a 50 percent discount. -/
def dealA : Product :=
  { id := 1
    title := "Iphone - Excellent état"
    platform := "leboncoin"
    priceAverage := 850
    priceSale := 425
    discount := 50
    location := "Paris"
    category := "Téléphonie"
    seller := "User1"
    postedHoursAgo := 5
    emoji := "📱"
    color := "#ff6e14" }

/-- Cached listing with a 45 percent discount. -/
def dealB : Product :=
  { id := 2
    title := "Iphone - Très bon état"
    platform := "vinted"
    priceAverage := 100
    priceSale := 55
    discount := 45
    location := "Lyon"
    category := "Mode"
    seller := "VintedUser1"
    postedHoursAgo := 7
    emoji := "👕"
    color := "#09b1ba" }

/-- Cache holding a fresh two-listing entry for the key of
`("iphone", location=None, platform=None)`, stamped at minute `0`. -/
def demoCache : Cache := [(get_cache_key "iphone" none none, ([dealA, dealB], 0))]

/-! Behaviour of the pipeline when min_discount is zero. -/

/-- C10. When `min_discount` is `0` the Python guard `if min_discount:`
is falsy, so the discount predicate is skipped entirely: the listing
endpoint's pipeline equals the four other filter stages followed by
truncation, and a stored listing with a negative discount that passes
the other filters is returned untested. -/
theorem min_discount_zero_skips_filter (query location category platform : Option String)
    (mr : ℤ) (products : List Product) :
    get_products query location category platform 0 mr products
        = pyTake mr (filter_stages_sans_discount query location category platform products)
    ∧ get_products none none none none 0 50 [negDeal] = [negDeal] := by
  constructor
  · rfl
  · decide

/-! Cache behaviour. -/

lemma cacheFresh_isSome_iff (c : Cache) (key : String) (now : ℤ) :
    (cacheFresh c key now).isSome = true ↔
      ∃ data t, List.lookup key c = some (data, t) ∧ now - t < CACHE_DURATION := by
  unfold cacheFresh
  cases hl : List.lookup key c with
  | none => simp
  | some e =>
    obtain ⟨data, t⟩ := e
    by_cases ht : now - t < CACHE_DURATION
    · simp only [ht, if_true, Option.isSome_some, true_iff]
      exact ⟨data, t, rfl, ht⟩
    · simp only [ht, if_false, Option.isSome_none, Bool.false_eq_true, false_iff]
      rintro ⟨d', t', he, hlt⟩
      cases he
      exact ht hlt

lemma search_products_hit (req : SearchRequest) (c : Cache) (now : ℤ)
    (d1 d2 : ℕ → Draw) (data : List Product)
    (h : cacheFresh c (get_cache_key req.query req.location req.platform) now
      = some data) :
    search_products req c now d1 d2
      = ⟨⟨"success", true, data, data.length, none⟩, c, none⟩ := by
  simp only [search_products]
  rw [h]

lemma search_products_miss (req : SearchRequest) (c : Cache) (now : ℤ)
    (d1 d2 : ℕ → Draw)
    (h : cacheFresh c (get_cache_key req.query req.location req.platform) now
      = none) :
    search_products req c now d1 d2
      = ⟨⟨"success", false, search_filtered req d1 d2,
            (search_filtered req d1 d2).length, some now⟩,
          cachePut c (get_cache_key req.query req.location req.platform)
            (search_filtered req d1 d2, now),
          some (search_filtered req d1 d2)⟩ := by
  simp only [search_products]
  rw [h]

/-- C3. A `search` cache hit occurs exactly when an entry for the key of
`(query, location, platform)` is present and strictly younger than the
30-minute TTL; a hit returns the stored product list unchanged with
`cached=true`; hence two consecutive searches with identical body within
30 minutes, started without a fresh entry for that key, return
`cached=false` then `cached=true` with identical products and count. -/
theorem search_cache_hit_spec (req : SearchRequest) (c : Cache) (now later : ℤ)
    (d1 d2 d1' d2' : ℕ → Draw) :
    ((cacheFresh c (get_cache_key req.query req.location req.platform) now).isSome = true ↔
      ∃ data t, List.lookup (get_cache_key req.query req.location req.platform) c
          = some (data, t) ∧ now - t < CACHE_DURATION) ∧
    (∀ data,
      cacheFresh c (get_cache_key req.query req.location req.platform) now = some data →
      search_products req c now d1 d2
        = ⟨⟨"success", true, data, data.length, none⟩, c, none⟩) ∧
    ((search_products req c now d1 d2).response.cached
      = (cacheFresh c (get_cache_key req.query req.location req.platform) now).isSome) ∧
    (cacheFresh c (get_cache_key req.query req.location req.platform) now = none →
      now ≤ later → later - now < CACHE_DURATION →
      (search_products req c now d1 d2).response.cached = false ∧
      (search_products req (search_products req c now d1 d2).cache later d1' d2').response.cached
          = true ∧
      (search_products req (search_products req c now d1 d2).cache later d1' d2').response.products
          = (search_products req c now d1 d2).response.products ∧
      (search_products req (search_products req c now d1 d2).cache later d1' d2').response.count
          = (search_products req c now d1 d2).response.count) := by
  refine ⟨cacheFresh_isSome_iff _ _ _,
    fun data h => search_products_hit req c now d1 d2 data h, ?_, ?_⟩
  · cases hf : cacheFresh c (get_cache_key req.query req.location req.platform) now with
    | none => rw [search_products_miss req c now d1 d2 hf]; rfl
    | some data => rw [search_products_hit req c now d1 d2 data hf]; rfl
  · intro h0 h1 h2
    rw [search_products_miss req c now d1 d2 h0]
    dsimp only
    have hfresh2 : cacheFresh
        (cachePut c (get_cache_key req.query req.location req.platform)
          (search_filtered req d1 d2, now))
        (get_cache_key req.query req.location req.platform) later
        = some (search_filtered req d1 d2) := by
      unfold cacheFresh cachePut
      simp [List.lookup, h2]
    rw [search_products_hit req _ later d1' d2' _ hfresh2]
    exact ⟨rfl, rfl, rfl, rfl⟩

/-- C8. The search cache key is derived only from
`(query, location, platform)`: on a fresh entry for those three values,
`search` returns the stored list unchanged whatever `min_discount` and
`max_results` say, the whole outcome being independent of those two
fields (and of the draws); concretely, a stored pair of listings is
returned for a request with `min_discount = 90` and `max_results = 1`
even though one returned listing has a sub-floor discount and the count
exceeds the cap. -/
theorem search_cache_key_ignores_limits (q : String) (loc plat : Option String)
    (md md' mr mr' : ℤ) (c : Cache) (now : ℤ) (d1 d2 d1' d2' : ℕ → Draw)
    (data : List Product)
    (h : cacheFresh c (get_cache_key q loc plat) now = some data) :
    search_products ⟨q, loc, plat, md, mr⟩ c now d1 d2
        = ⟨⟨"success", true, data, data.length, none⟩, c, none⟩ ∧
    search_products ⟨q, loc, plat, md, mr⟩ c now d1 d2
        = search_products ⟨q, loc, plat, md', mr'⟩ c now d1' d2' ∧
    ((search_products ⟨"iphone", none, none, 90, 1⟩ demoCache 5 d1 d2).response.products
        = [dealA, dealB]
      ∧ dealB.discount < 90
      ∧ 1 < (search_products ⟨"iphone", none, none, 90, 1⟩ demoCache 5 d1 d2).response.count) := by
  have h1 : search_products ⟨q, loc, plat, md, mr⟩ c now d1 d2
      = ⟨⟨"success", true, data, data.length, none⟩, c, none⟩ :=
    search_products_hit ⟨q, loc, plat, md, mr⟩ c now d1 d2 data h
  have h2 : search_products ⟨q, loc, plat, md', mr'⟩ c now d1' d2'
      = ⟨⟨"success", true, data, data.length, none⟩, c, none⟩ :=
    search_products_hit ⟨q, loc, plat, md', mr'⟩ c now d1' d2' data h
  have hdemo : search_products ⟨"iphone", none, none, 90, 1⟩ demoCache 5 d1 d2
      = ⟨⟨"success", true, [dealA, dealB], 2, none⟩, demoCache, none⟩ :=
    search_products_hit ⟨"iphone", none, none, 90, 1⟩ demoCache 5 d1 d2 [dealA, dealB] rfl
  refine ⟨h1, h1.trans h2.symm, ?_, by decide, ?_⟩
  · rw [hdemo]
  · rw [hdemo]
    decide

/-- C9. A `platform` value other than absent, `"all"`, `"leboncoin"` or
`"vinted"` selects no fetcher: the aggregator returns the empty list,
and both `search` (from a state with no fresh entry for its key) and
`refresh` complete successfully with an empty product list and
`count = 0` instead of raising. -/
theorem unknown_platform_yields_empty (q : String) (plat loc : Option String)
    (md mr : ℤ) (c : Cache) (now : ℤ) (d1 d2 : ℕ → Draw)
    (h1 : plat ≠ none) (h2 : plat ≠ some "all")
    (h3 : plat ≠ some "leboncoin") (h4 : plat ≠ some "vinted")
    (hmiss : cacheFresh c (get_cache_key q loc plat) now = none) :
    scrape_all_platforms q plat d1 d2 = [] ∧
    (search_products ⟨q, loc, plat, md, mr⟩ c now d1 d2).response.products = [] ∧
    (search_products ⟨q, loc, plat, md, mr⟩ c now d1 d2).response.count = 0 ∧
    (refresh_data q plat c d1 d2).response.products = [] ∧
    (refresh_data q plat c d1 d2).response.count = 0 := by
  have hsel1 : selects_leboncoin plat = false := by
    cases plat with
    | none => exact absurd rfl h1
    | some s =>
      have hs2 : s ≠ "all" := fun he => h2 (by rw [he])
      have hs3 : s ≠ "leboncoin" := fun he => h3 (by rw [he])
      simp [selects_leboncoin, hs2, hs3]
  have hsel2 : selects_vinted plat = false := by
    cases plat with
    | none => exact absurd rfl h1
    | some s =>
      have hs2 : s ≠ "all" := fun he => h2 (by rw [he])
      have hs4 : s ≠ "vinted" := fun he => h4 (by rw [he])
      simp [selects_vinted, hs2, hs4]
  have hempty : scrape_all_platforms q plat d1 d2 = [] := by
    rw [scrape_all_platforms_eq, hsel1, hsel2]
    rfl
  have hsf : search_filtered ⟨q, loc, plat, md, mr⟩ d1 d2 = [] := by
    unfold search_filtered
    dsimp only
    rw [hempty]
    cases loc with
    | none =>
      simp only [List.filter_nil]
      unfold pyTake
      split <;> simp
    | some s =>
      simp only [List.filter_nil]
      split <;> (unfold pyTake; split <;> simp)
  rw [search_products_miss ⟨q, loc, plat, md, mr⟩ c now d1 d2 hmiss, hempty]
  unfold refresh_data
  dsimp only
  rw [hempty, hsf]
  exact ⟨rfl, rfl, rfl, rfl, rfl⟩

lemma lookup_cacheErase (c : Cache) (k : String) :
    List.lookup k (cacheErase c k) = none := by
  induction c with
  | nil => rfl
  | cons e rest ih =>
    obtain ⟨k', v⟩ := e
    by_cases h : k' = k
    · simpa [cacheErase, List.filter_cons, h] using ih
    · have h' : (k == k') = false := by
        simp [Ne.symm h]
      simpa [cacheErase, List.filter_cons, h, List.lookup, h'] using ih

/-- C4 (amended). `refresh` deletes exactly the cache entry keyed by
`(query, location=None, platform)`: after a refresh, that key is absent,
and an immediately following `search` with the same query and platform
and an absent location misses the cache (`cached=false`), so it cannot
return the pre-refresh cached value. (Entries cached by searches whose
location was not `None` use a different key and are not touched; see the
counterexample.) -/
theorem refresh_invalidates_none_location_key (q : String) (plat : Option String)
    (c : Cache) (d1 d2 d1' d2' : ℕ → Draw) (md mr now : ℤ) :
    List.lookup (get_cache_key q none plat) (refresh_data q plat c d1 d2).cache = none ∧
    (search_products ⟨q, none, plat, md, mr⟩ (refresh_data q plat c d1 d2).cache
        now d1' d2').response.cached = false := by
  have hl : List.lookup (get_cache_key q none plat) (refresh_data q plat c d1 d2).cache
      = none := by
    unfold refresh_data
    dsimp only
    exact lookup_cacheErase c _
  have hm : cacheFresh (refresh_data q plat c d1 d2).cache
      (get_cache_key q none plat) now = none := by
    unfold cacheFresh
    rw [hl]
  refine ⟨hl, ?_⟩
  rw [search_products_miss ⟨q, none, plat, md, mr⟩ _ now d1' d2' hm]

/-- C5 (amended). Requests whose `min_discount` lies outside `0..100` or
whose `max_results` lies outside `1..200` are rejected at the API
boundary with a 422 client error on `GET /api/products` (whose handler
is read-only, so nothing changes); `POST /api/search` performs no such
range validation and accepts every well-typed body, running the handler.
-/
theorem boundary_validation_amended (md mr : ℤ)
    (query location category platform : Option String) (store : List Product)
    (h : md < 0 ∨ 100 < md ∨ mr < 1 ∨ 200 < mr) :
    products_params_ok md mr = false ∧
    get_products_endpoint query location category platform md mr store
        = Except.error 422 ∧
    ∀ (req : SearchRequest) (c : Cache) (now : ℤ) (d1 d2 : ℕ → Draw),
      (search_endpoint req c now d1 d2).isOk = true := by
  have hv : products_params_ok md mr = false := by
    rw [Bool.eq_false_iff]
    intro habs
    simp only [products_params_ok, Bool.and_eq_true, decide_eq_true_eq] at habs
    omega
  refine ⟨hv, ?_, fun req c now d1 d2 => rfl⟩
  unfold get_products_endpoint
  rw [hv]
  rfl

/-! Statistics endpoint. -/

lemma lookupCount_dictIncr (m : List (String × ℕ)) (k s : String) :
    lookupCount (dictIncr m k) s = lookupCount m s + (if s = k then 1 else 0) := by
  induction m with
  | nil =>
    by_cases h : s = k
    · have hb : (s == k) = true := by simp [h]
      simp [dictIncr, lookupCount, List.lookup, hb, h]
    · have hb : (s == k) = false := by simp [h]
      simp [dictIncr, lookupCount, List.lookup, hb, h]
  | cons e rest ih =>
    obtain ⟨k', v⟩ := e
    by_cases h1 : k' = k
    · subst h1
      by_cases h2 : s = k'
      · have hb : (s == k') = true := by simp [h2]
        simp [dictIncr, lookupCount, List.lookup, hb, h2]
      · have hb : (s == k') = false := by simp [h2]
        simp [dictIncr, lookupCount, List.lookup, hb, h2]
    · have hb1 : (k' == k) = false := by simp [h1]
      by_cases h2 : s = k'
      · have hb : (s == k') = true := by simp [h2]
        have hsk : s ≠ k := fun he => h1 (h2.symm.trans he)
        simp [dictIncr, lookupCount, List.lookup, hb1, hb, hsk]
      · have hb : (s == k') = false := by simp [h2]
        simpa [dictIncr, lookupCount, List.lookup, hb1, hb] using ih

lemma lookupCount_countBy (f : Product → String) (l : List Product) (s : String) :
    lookupCount (countBy f l) s = (l.filter (fun p => f p == s)).length := by
  suffices h : ∀ acc : List (String × ℕ),
      lookupCount (l.foldl (fun m p => dictIncr m (f p)) acc) s
        = lookupCount acc s + (l.filter (fun p => f p == s)).length by
    simpa [countBy, lookupCount] using h []
  induction l with
  | nil => intro acc; simp
  | cons p rest ih =>
    intro acc
    by_cases hp : f p = s
    · have hb : (f p == s) = true := by simp [hp]
      simp only [List.foldl_cons, List.filter_cons, hb, if_true]
      rw [ih (dictIncr acc (f p)), lookupCount_dictIncr]
      simp [hp]
      omega
    · have hb : (f p == s) = false := by simp [hp]
      simp only [List.foldl_cons, List.filter_cons, hb]
      rw [ih (dictIncr acc (f p)), lookupCount_dictIncr]
      have : s ≠ f p := fun he => hp he.symm
      simp [this]

/-- C7. `stats` reports: `total_products` = number of stored listings,
`good_deals_count` = number with discount at least 50,
`average_discount` = mean discount rounded to 1 decimal,
`total_savings` = sum of `priceAverage - priceSale` rounded to
2 decimals, and per-platform / per-category counting maps; on an empty
store everything is zero and both maps are empty. -/
theorem stats_spec (products : List Product) :
    (get_stats products).total_products = products.length ∧
    (get_stats products).good_deals_count
        = (products.filter (fun p => decide (50 ≤ p.discount))).length ∧
    (get_stats products).average_discount
        = (if products.length = 0 then 0
           else pyRoundTo ((((products.map (fun p => p.discount)).sum : ℤ) : ℚ)
             / (products.length : ℚ)) 1) ∧
    (get_stats products).total_savings
        = (if products.length = 0 then 0
           else pyRoundTo ((products.map (fun p => p.priceAverage - p.priceSale)).sum) 2) ∧
    (∀ s, lookupCount (get_stats products).platforms s
        = (products.filter (fun p => p.platform == s)).length) ∧
    (∀ s, lookupCount (get_stats products).categories s
        = (products.filter (fun p => p.category == s)).length) ∧
    get_stats [] = ⟨0, 0, 0, 0, [], []⟩ := by
  cases products with
  | nil =>
    simp [get_stats, lookupCount, List.lookup]
  | cons p rest =>
    have hlen : (p :: rest).length ≠ 0 := by simp
    refine ⟨rfl, rfl, ?_, ?_, ?_, ?_, rfl⟩
    · rw [if_neg hlen]; rfl
    · rw [if_neg hlen]; rfl
    · intro s; exact lookupCount_countBy (fun x => x.platform) (p :: rest) s
    · intro s; exact lookupCount_countBy (fun x => x.category) (p :: rest) s

/-! Concrete counterexamples and witnesses.

The `Rat` arithmetic operations are irreducible by default; they are
made semireducible locally so that the closed statements below evaluate
inside `decide`. -/

section Concrete

attribute [local semireducible] Rat.add Rat.mul Rat.sub Rat.inv

set_option maxRecDepth 40000 in
/-- C4 (counterexample). A search with `location="Paris"` is cached;
`refresh` with the same query and platform only deletes the key of
`(query, None, platform)`, so an identical subsequent search within the
TTL still returns the pre-refresh cached value (`cached=true`, same
products), contradicting the claim. -/
theorem refresh_skips_located_entry_cx :
    (let o1 := search_products ⟨"iphone", some "Paris", some "leboncoin", 40, 50⟩
        [] 0 oneHitDraws oneHitDraws
     let r := refresh_data "iphone" (some "leboncoin") o1.cache oneHitDraws oneHitDraws
     let o2 := search_products ⟨"iphone", some "Paris", some "leboncoin", 40, 50⟩
        r.cache 10 oneHitDraws oneHitDraws
     o1.response.cached = false ∧ o1.response.products ≠ [] ∧
     o2.response.cached = true ∧
     o2.response.products = o1.response.products) := by
  decide

set_option maxRecDepth 40000 in
/-- C5 (counterexample). The body `min_discount=-1, max_results=500` is
out of range for the validator of `GET /api/products`, yet
`POST /api/search` accepts it and runs the handler, which writes the
cache: no client error and a side effect. -/
theorem search_no_range_validation_cx :
    products_params_ok (-1) 500 = false ∧
    (search_endpoint ⟨"iphone", none, none, -1, 500⟩ [] 0
        oneHitDraws oneHitDraws).isOk = true ∧
    (search_products ⟨"iphone", none, none, -1, 500⟩ [] 0
        oneHitDraws oneHitDraws).cache ≠ [] := by
  refine ⟨by decide, rfl, ?_⟩
  decide

set_option maxRecDepth 40000 in
/-- Witness for C2: the concrete listing produced by
`scrape_leboncoin "iphone"` under `goodDraw` satisfies the discount
formula and the floor. -/
theorem fetcher_discount_invariants_witness :
    lbcSample ∈ scrape_leboncoin "iphone" 1 (fun _ => goodDraw) ∧
    lbcSample.discount
      = pyRound ((lbcSample.priceAverage - lbcSample.priceSale)
          / lbcSample.priceAverage * 100) ∧
    40 ≤ lbcSample.discount := by
  have hm : lbcSample ∈ scrape_leboncoin "iphone" 1 (fun _ => goodDraw) := by decide
  have h := (fetcher_discount_invariants "iphone" 1 (fun _ => goodDraw)).1 lbcSample hm
  exact ⟨hm, h.1, h.2⟩

set_option maxRecDepth 40000 in
/-- Witness for C3: from an empty cache, two identical searches ten
minutes apart give `cached=false` then `cached=true` with identical
products and count. -/
theorem search_cache_hit_spec_witness :
    (search_products ⟨"iphone", some "Paris", some "leboncoin", 40, 50⟩ [] 0
        oneHitDraws oneHitDraws).response.cached = false ∧
    (search_products ⟨"iphone", some "Paris", some "leboncoin", 40, 50⟩
        (search_products ⟨"iphone", some "Paris", some "leboncoin", 40, 50⟩ [] 0
          oneHitDraws oneHitDraws).cache 10 oneHitDraws oneHitDraws).response.cached
        = true ∧
    (search_products ⟨"iphone", some "Paris", some "leboncoin", 40, 50⟩
        (search_products ⟨"iphone", some "Paris", some "leboncoin", 40, 50⟩ [] 0
          oneHitDraws oneHitDraws).cache 10 oneHitDraws oneHitDraws).response.products
      = (search_products ⟨"iphone", some "Paris", some "leboncoin", 40, 50⟩ [] 0
          oneHitDraws oneHitDraws).response.products ∧
    (search_products ⟨"iphone", some "Paris", some "leboncoin", 40, 50⟩
        (search_products ⟨"iphone", some "Paris", some "leboncoin", 40, 50⟩ [] 0
          oneHitDraws oneHitDraws).cache 10 oneHitDraws oneHitDraws).response.count
      = (search_products ⟨"iphone", some "Paris", some "leboncoin", 40, 50⟩ [] 0
          oneHitDraws oneHitDraws).response.count :=
  (search_cache_hit_spec ⟨"iphone", some "Paris", some "leboncoin", 40, 50⟩ [] 0 10
    oneHitDraws oneHitDraws oneHitDraws oneHitDraws).2.2.2 rfl (by decide) (by decide)

/-- Witness for C5 (amended): `min_discount=-1, max_results=500` is
rejected by the products endpoint and accepted by the search endpoint. -/
theorem boundary_validation_amended_witness :
    products_params_ok (-1) 500 = false ∧
    get_products_endpoint none none none none (-1) 500 [] = Except.error 422 ∧
    (search_endpoint ⟨"iphone", none, none, -1, 500⟩ [] 0
        oneHitDraws oneHitDraws).isOk = true := by
  have h := boundary_validation_amended (-1) 500 none none none none []
    (Or.inl (by decide))
  exact ⟨h.1, h.2.1, h.2.2 ⟨"iphone", none, none, -1, 500⟩ [] 0 oneHitDraws oneHitDraws⟩

/-- Witness for C6: boundary-admissible criteria on a concrete store. -/
theorem filter_pipeline_idempotent_witness :
    products_params_ok 40 50 = true ∧
    get_products none none none none 40 50
        (get_products none none none none 40 50 [dealA, dealB])
      = get_products none none none none 40 50 [dealA, dealB] :=
  ⟨by decide,
    filter_pipeline_idempotent none none none none 40 50 [dealA, dealB] (by decide)⟩

set_option maxRecDepth 40000 in
/-- Witness for C8: the demo cache entry is fresh and a hit returns it
unchanged for `min_discount=90, max_results=1`. -/
theorem search_cache_key_ignores_limits_witness :
    cacheFresh demoCache (get_cache_key "iphone" none none) 5 = some [dealA, dealB] ∧
    search_products ⟨"iphone", none, none, 90, 1⟩ demoCache 5 oneHitDraws oneHitDraws
      = ⟨⟨"success", true, [dealA, dealB], 2, none⟩, demoCache, none⟩ := by
  have h := search_cache_key_ignores_limits "iphone" none none 90 40 1 50 demoCache 5
    oneHitDraws oneHitDraws oneHitDraws oneHitDraws [dealA, dealB] rfl
  exact ⟨rfl, h.1⟩

set_option maxRecDepth 40000 in
/-- Witness for C9: platform `"ebay"` selects no fetcher; search and
refresh return empty results with count `0`. -/
theorem unknown_platform_yields_empty_witness :
    scrape_all_platforms "iphone" (some "ebay") oneHitDraws oneHitDraws = [] ∧
    (search_products ⟨"iphone", none, some "ebay", 40, 50⟩ [] 0
        oneHitDraws oneHitDraws).response.count = 0 ∧
    (refresh_data "iphone" (some "ebay") [] oneHitDraws oneHitDraws).response.count
      = 0 := by
  have h := unknown_platform_yields_empty "iphone" (some "ebay") none 40 50 [] 0
    oneHitDraws oneHitDraws (by decide) (by decide) (by decide) (by decide) rfl
  exact ⟨h.1, h.2.2.1, h.2.2.2.2⟩

end Concrete
